import Mathlib

/-!
Verification of the Wayland keyboard-monitor core of `kbd-layout-indicator`
(file `usr/share/kbd-layout-indicator/keyboard.py`), shallowly embedded in
Lean.  Bytes are modelled as `Nat` (wire bytes are octets, so every byte
extraction is taken modulo 256), Python `bytes`/`bytearray` values as
`List Nat`, file descriptors as `Int` (the sentinel -1 is meaningful), and
a handler that raises a Python exception returns `none`.

Calls that leave the repository's code — the ctypes binding to
libxkbcommon, Python `re.findall`, and `mmap`-backed reading of a keymap
fd — are passed in as an explicit oracle record `ExtCalls`, so theorems
quantify over every possible behaviour of those externals.
-/

/-- Little-endian unsigned interpretation of a byte list (first byte is
least significant); each element is reduced mod 256, as wire bytes are
octets.  This is the reading direction of Python `struct.unpack("<I", ·)`. -/
def u32le : List Nat → Nat
  | [] => 0
  | b :: rest => b % 256 + 256 * u32le rest

/-- `struct.unpack_from("<I", buf, off)`: reads 4 bytes little-endian at
`off`; `none` models the `struct.error` raised when fewer than 4 bytes
remain. -/
def u32at (buf : List Nat) (off : Nat) : Option Nat :=
  if off + 4 ≤ buf.length then some (u32le ((buf.drop off).take 4)) else none

/-- `_pack_uint` / `struct.pack("<I", v)`: 4 bytes, little-endian.  (Python
raises for `v ≥ 2^32`; the model reduces mod 256 per byte, and round-trip
theorems carry the `v < 2^32` bound explicitly.) -/
def packUint (v : Nat) : List Nat :=
  [v % 256, v / 256 % 256, v / 65536 % 256, v / 16777216 % 256]

/-- `_pack_string` over the UTF-8 bytes `sb` of the Python string:
`b = s.encode("utf-8") + NUL`, then a u32 byte length (counting the NUL)
followed by `b` and zero padding to the next 4-byte boundary. -/
def packString (sb : List Nat) : List Nat :=
  let b := sb ++ [0]
  let length := b.length
  let pad := (4 - length % 4) % 4
  packUint length ++ b ++ List.replicate pad 0

/-- `_build_msg(obj_id, opcode, payload)`: 8-byte header
`(obj_id, (size <<< 16) ||| opcode)` followed by the payload, where
`size = 8 + len(payload)`. -/
def buildMsg (objId opcode : Nat) (payload : List Nat) : List Nat :=
  let size := 8 + payload.length
  packUint objId ++ packUint ((size <<< 16) ||| opcode) ++ payload

/-- The string-unpacking recipe used by `_handle_registry_event`, shifted
to the start of the packed string: read the u32 length `L` at offset 0,
take the `L - 1` bytes before the NUL terminator starting at offset 4,
and skip `4 + L` rounded up to the next 4-byte boundary.  Returns the
recovered UTF-8 bytes and the offset just past the padded string. -/
def unpackString (buf : List Nat) : Option (List Nat × Nat) :=
  match u32at buf 0 with
  | none => none
  | some strLen =>
      some ((buf.drop 4).take (strLen - 1), 4 + strLen + (4 - strLen % 4) % 4)

/-- UTF-8 encoding of one character (the encoding Python
`str.encode("utf-8")` applies code point by code point). -/
def utf8EncodeChar (c : Char) : List Nat :=
  let n := c.toNat
  if n < 128 then [n]
  else if n < 2048 then [192 + n / 64, 128 + n % 64]
  else if n < 65536 then [224 + n / 4096, 128 + n / 64 % 64, 128 + n % 64]
  else [240 + n / 262144, 128 + n / 4096 % 64, 128 + n / 64 % 64, 128 + n % 64]

/-- UTF-8 bytes of a string, i.e. Python `s.encode("utf-8")`. -/
def strBytes (s : String) : List Nat :=
  s.data.flatMap utf8EncodeChar

/-- Python `s.startswith("/")` for the single-character separator: true
iff the first character is `'/'`. -/
def startsWithSlash (s : String) : Bool :=
  match s.data with
  | [] => false
  | c :: _ => c == '/'

/-- `s.endswith("/")`, used by `os.path.join`'s separator rule. -/
def endsWithSlash (s : String) : Bool :=
  match s.data.getLast? with
  | none => false
  | some c => c == '/'

/-- `os.path.join(a, b)` for POSIX paths restricted to two components:
if `b` is absolute it wins; otherwise it is appended with a single
separator unless `a` is empty or already ends in one. -/
def pathJoin (a b : String) : String :=
  if startsWithSlash b then b
  else if a = "" ∨ endsWithSlash a then a ++ b
  else a ++ "/" ++ b

/-- `_wayland_socket_path()`.  The two environment variables are passed as
`Option String` (`none` = unset).  `display` defaults to `"wayland-0"`;
an absolute display is returned verbatim; otherwise Python's
`if not xdg` raises `RuntimeError` both when `XDG_RUNTIME_DIR` is unset
and when it is set to the empty string (`none` models the raise). -/
def waylandSocketPath (wd xdg : Option String) : Option String :=
  let display := wd.getD "wayland-0"
  if startsWithSlash display then some display
  else
    match xdg with
    | none => none
    | some x => if x = "" then none else some (pathJoin x display)

/-- Oracle record for everything the decoder calls outside this
repository's code.
* `xkbCompile = none` models `self._ctx` being null (libxkbcommon absent
  or context creation failed); `some compile` models a live context, with
  `compile s = none` when `xkb_keymap_new_from_string` returns null and
  `compile s = some raws` when it compiles, `raws` listing, per layout
  index `i` in `0 .. n-1` (`n = xkb_keymap_num_layouts`), the decoded
  name from `xkb_keymap_layout_get_name`, or `none` when Python's
  `raw` is falsy (null or empty) so `f"Group<i>"` is substituted.
* `findallLayout s` models `re.findall` of the first fallback pattern
  (quoted name after `xkb_layout`), `findallGroup s` the second
  (`name[GroupN] = "..."` pairs, numeric index with the quoted name).
* `mmapRead fd size` models `mmap` of the keymap fd followed by
  `rstrip(b"\x00").decode("utf-8")`; `none` is any exception on that path. -/
structure ExtCalls where
  xkbCompile : Option (String → Option (List (Option String)))
  findallLayout : String → List String
  findallGroup : String → List (Nat × String)
  mmapRead : Int → Nat → Option String

/-- Stable insertion of a pair into a list sorted by first component
(inserted after equal keys, as Python's stable `list.sort` leaves it). -/
def insertPair (x : Nat × String) : List (Nat × String) → List (Nat × String)
  | [] => [x]
  | y :: ys => if y.1 ≤ x.1 then y :: insertPair x ys else x :: y :: ys

/-- Stable ascending sort by the numeric group index, modelling
`names.sort(key=lambda x: int(x[0]))`. -/
def sortPairs : List (Nat × String) → List (Nat × String)
  | [] => []
  | x :: xs => insertPair x (sortPairs xs)

/-- `XkbParser._regex_fallback`: all matches of the first pattern; if none,
the second pattern's matches sorted by group index and projected to the
name; if still nothing, `["Unknown"]`. -/
def regexFallback (E : ExtCalls) (s : String) : List String :=
  let names1 := E.findallLayout s
  let names2 :=
    if names1.isEmpty then
      let ms := E.findallGroup s
      if ms.isEmpty then [] else (sortPairs ms).map Prod.snd
    else names1
  if names2.isEmpty then ["Unknown"] else names2

/-- `XkbParser.parse`: with no live context, or when compilation returns
null, fall back to the text scan; otherwise return one name per layout
reported by the library, substituting `"Group<i>"` for a falsy raw name. -/
def xkbParse (E : ExtCalls) (s : String) : List String :=
  match E.xkbCompile with
  | none => regexFallback E s
  | some compile =>
    match compile s with
    | none => regexFallback E s
    | some raws =>
        raws.enum.map fun p =>
          match p.2 with
          | some nm => nm
          | none => "Group" ++ toString p.1

-- ---------------------------------------------------------------------------
-- Wayland protocol constants (well-known IDs and opcodes from the source)
-- ---------------------------------------------------------------------------

def WL_DISPLAY_ID : Nat := 1
def WL_DISPLAY_ERROR : Nat := 0
def WL_DISPLAY_DELETE_ID : Nat := 1
def WL_REGISTRY_GLOBAL : Nat := 0
def WL_SEAT_GET_KEYBOARD : Nat := 1
def WL_SEAT_CAPABILITIES : Nat := 0
def WL_SEAT_CAP_KEYBOARD : Nat := 2
def WL_KEYBOARD_KEYMAP : Nat := 0
def WL_KEYBOARD_MODIFIERS : Nat := 4
def WL_CALLBACK_DONE : Nat := 0

/-- The mutable fields of `WaylandKeyboardMonitor`, plus three ghost output
logs making side effects observable: `emits` records every
`on_layout_change(name, group)` callback, `closedFds` every `os.close(fd)`,
and `sent` every byte string passed to `_send`. -/
structure EngineState where
  nextId : Nat
  registryId : Option Nat
  seatId : Option Nat
  keyboardId : Option Nat
  callbackId : Option Nat
  seatGlobalName : Option Nat
  layoutNames : List String
  currentGroup : Nat
  recvBuf : List Nat
  recvFds : List Int
  pendingSync : Option Nat
  syncDone : Bool
  emits : List (String × Nat)
  closedFds : List Int
  sent : List (List Nat)
  deriving DecidableEq

/-- The state `WaylandKeyboardMonitor.__init__` establishes (ghost logs
empty). -/
def initState : EngineState where
  nextId := 2
  registryId := none
  seatId := none
  keyboardId := none
  callbackId := none
  seatGlobalName := none
  layoutNames := []
  currentGroup := 0
  recvBuf := []
  recvFds := []
  pendingSync := none
  syncDone := false
  emits := []
  closedFds := []
  sent := []

/-- The name-resolution rule of `_notify`: the current group's layout when
the list is non-empty and the group is in range, the first layout when the
list is non-empty but the group is out of range, and the sentinel `"??"`
when no layouts are known.  (`getD`'s default is unreachable under each
guard.) -/
def resolveName (layouts : List String) (group : Nat) : String :=
  if layouts ≠ [] ∧ group < layouts.length then layouts.getD group "??"
  else if layouts ≠ [] then layouts.getD 0 "??"
  else "??"

/-- `_notify`: resolve the current name and invoke the
`on_layout_change(name, group)` callback (recorded on the `emits` ghost
log). -/
def notifyChange (st : EngineState) : EngineState :=
  { st with emits :=
      st.emits ++ [(resolveName st.layoutNames st.currentGroup, st.currentGroup)] }

/-- `_on_modifiers(group)`: update the group and notify only when it
changed. -/
def onModifiers (group : Nat) (st : EngineState) : EngineState :=
  if group ≠ st.currentGroup then
    notifyChange { st with currentGroup := group }
  else st

/-- `_on_keymap(fmt, fd, size)`: a missing fd (negative) only logs; a
non-XKB_V1 format closes the fd and returns; otherwise the keymap is read
through the mmap oracle — on failure the fd is still closed (the
`finally` block) and nothing else changes, on success the fd is closed,
the decoded layout names replace `_layout_names`, and `_notify` runs. -/
def onKeymap (E : ExtCalls) (fmt : Nat) (fd : Int) (size : Nat)
    (st : EngineState) : EngineState :=
  if fd < 0 then st
  else if fmt ≠ 1 then { st with closedFds := st.closedFds ++ [fd] }
  else
    match E.mmapRead fd size with
    | none => { st with closedFds := st.closedFds ++ [fd] }
    | some kstr =>
        let st₁ := { st with closedFds := st.closedFds ++ [fd] }
        notifyChange { st₁ with layoutNames := xkbParse E kstr }

/-- `_bind_keyboard`: allocate the keyboard object ID and send
`seat.get_keyboard`; `none` models the exception Python would raise were
`self._seat_id` still `None` when `_build_msg` runs. -/
def bindKeyboard (st : EngineState) : Option EngineState :=
  match st.seatId with
  | none => none
  | some sid =>
      let kid := st.nextId
      some { st with
        nextId := st.nextId + 1
        keyboardId := some kid
        sent := st.sent ++ [buildMsg sid WL_SEAT_GET_KEYBOARD (packUint kid)] }

/-- `_handle_display_event`: an `error` event only parses its payload and
logs (`none` models the `struct.error` on a short payload); `delete_id`
and everything else is ignored. -/
def handleDisplayEvent (opcode : Nat) (payload : List Nat)
    (st : EngineState) : Option EngineState :=
  if opcode = WL_DISPLAY_ERROR then
    match u32at payload 0, u32at payload 4, u32at payload 8 with
    | some _oid, some _code, some _msgLen => some st
    | _, _, _ => none
  else some st

/-- `_handle_registry_event`: a `global` event unpacks the numeric name,
the string length, the interface bytes (`payload[8 : 8 + str_len - 1]`)
and, past the 4-byte-padded string, the version; when the interface is
`"wl_seat"` the numeric name is remembered — unconditionally overwriting
any previously remembered one.  `global_remove` is ignored.  (Python
decodes the interface bytes to `str` before comparing; the comparison is
modelled on the UTF-8 bytes, which agrees whenever the bytes decode.) -/
def handleRegistryEvent (opcode : Nat) (payload : List Nat)
    (st : EngineState) : Option EngineState :=
  if opcode = WL_REGISTRY_GLOBAL then
    match u32at payload 0, u32at payload 4 with
    | some name, some strLen =>
        let iface := (payload.drop 8).take (strLen - 1)
        let padded := 8 + strLen + (4 - strLen % 4) % 4
        match u32at payload padded with
        | some _version =>
            if iface = strBytes "wl_seat" then
              some { st with seatGlobalName := some name }
            else some st
        | none => none
    | _, _ => none
  else some st

/-- `_handle_seat_event`: on `capabilities`, bind the keyboard when the
keyboard bit is set and no keyboard object exists yet. -/
def handleSeatEvent (opcode : Nat) (payload : List Nat)
    (st : EngineState) : Option EngineState :=
  if opcode = WL_SEAT_CAPABILITIES then
    match u32at payload 0 with
    | some caps =>
        if caps &&& WL_SEAT_CAP_KEYBOARD ≠ 0 ∧ st.keyboardId = none then
          bindKeyboard st
        else some st
    | none => none
  else some st

/-- `_handle_keyboard_event`: `keymap` unpacks the format, pops the next
received fd (`_consume_fd`: -1 when none is queued), unpacks the size and
delegates to `_on_keymap`; `modifiers` unpacks five u32s and delegates the
`group` to `_on_modifiers`; enter/leave/key/repeat_info are ignored. -/
def handleKeyboardEvent (E : ExtCalls) (opcode : Nat) (payload : List Nat)
    (st : EngineState) : Option EngineState :=
  if opcode = WL_KEYBOARD_KEYMAP then
    match u32at payload 0 with
    | none => none
    | some fmt =>
        let fd := st.recvFds.headD (-1)
        let st₁ := { st with recvFds := st.recvFds.tail }
        match u32at payload 4 with
        | none => none
        | some size => some (onKeymap E fmt fd size st₁)
  else if opcode = WL_KEYBOARD_MODIFIERS then
    match u32at payload 16 with
    | none => none
    | some group => some (onModifiers group st)
  else some st

/-- `_handle_event`: route by object ID — the display (fixed ID 1), then
the registry, seat and keyboard objects, then the outstanding sync
callback (`done` sets `_sync_done`); unknown IDs are silently dropped.
(A `None` object field never matches, as in Python `None == int` is
false.) -/
def handleEvent (E : ExtCalls) (objId opcode : Nat) (payload : List Nat)
    (st : EngineState) : Option EngineState :=
  if objId = WL_DISPLAY_ID then handleDisplayEvent opcode payload st
  else if st.registryId = some objId then handleRegistryEvent opcode payload st
  else if st.seatId = some objId then handleSeatEvent opcode payload st
  else if st.keyboardId = some objId then handleKeyboardEvent E opcode payload st
  else if st.callbackId = some objId then
    some (if opcode = WL_CALLBACK_DONE then { st with syncDone := true } else st)
  else some st

-- ---------------------------------------------------------------------------
-- Message framing and dispatch
-- ---------------------------------------------------------------------------

/-- Object ID of the front message: `struct.unpack_from("<II", buf, 0)[0]`. -/
def objIdOf (buf : List Nat) : Nat := u32le (buf.take 4)

/-- Second header word of the front message. -/
def sizeOpOf (buf : List Nat) : Nat := u32le ((buf.drop 4).take 4)

/-- `opcode = size_op & 0xFFFF`. -/
def opcodeOf (buf : List Nat) : Nat := sizeOpOf buf % 65536

/-- `msg_size = size_op >> 16`. -/
def msgSizeOf (buf : List Nat) : Nat := sizeOpOf buf / 65536

/-- The `while` loop of `_dispatch_messages`, with the framing separated
from the routing: it returns the framed `(obj_id, opcode, payload)`
triples in order together with the remaining buffer.  The loop runs while
at least 8 bytes are buffered, stops on a front message whose declared
size is under 8 or not fully buffered, and otherwise slices
`buf[8:msg_size]` off as the payload and drops `msg_size` bytes.  The
`fuel` argument only bounds the iteration count for structural recursion;
`frameMessages` supplies `buf.length`, which is never exhausted since
every iteration drops at least 8 bytes. -/
def frameLoop : Nat → List Nat → List (Nat × Nat × List Nat) × List Nat
  | 0, buf => ([], buf)
  | fuel + 1, buf =>
    if 8 ≤ buf.length then
      if msgSizeOf buf < 8 ∨ buf.length < msgSizeOf buf then ([], buf)
      else
        let payload := (buf.drop 8).take (msgSizeOf buf - 8)
        let rest := frameLoop fuel (buf.drop (msgSizeOf buf))
        ((objIdOf buf, opcodeOf buf, payload) :: rest.1, rest.2)
    else ([], buf)

/-- The framing phase of `_dispatch_messages` on a receive buffer. -/
def frameMessages (buf : List Nat) : List (Nat × Nat × List Nat) × List Nat :=
  frameLoop buf.length buf

/-- Route a list of framed messages through `_handle_event` in order; a
handler exception (`none`) aborts the run as it would propagate in
Python. -/
def dispatchEvents (E : ExtCalls) :
    List (Nat × Nat × List Nat) → EngineState → Option EngineState
  | [], st => some st
  | (o, op, p) :: rest, st =>
      match handleEvent E o op p st with
      | none => none
      | some st' => dispatchEvents E rest st'

/-- `_dispatch_messages`: frame the buffered bytes greedily, keep the
unconsumed tail buffered, and route each framed message.  (The source
interleaves slicing and handling in one loop; no handler touches
`_recv_buf`, so framing first is equivalent.) -/
def dispatchMessages (E : ExtCalls) (st : EngineState) : Option EngineState :=
  let fr := frameMessages st.recvBuf
  dispatchEvents E fr.1 { st with recvBuf := fr.2 }

/-- Outcome of one `recvmsg` call on the socket: `wouldBlock` is
`BlockingIOError`, `connError` is `ConnectionError`, and `data` carries
the received bytes with any `SCM_RIGHTS` file descriptors. -/
inductive RecvResult where
  | wouldBlock
  | connError
  | data (bytes : List Nat) (fds : List Int)

/-- `_read_and_dispatch` as a function of the `recvmsg` outcome:
`BlockingIOError` and `ConnectionError` return after logging; empty data
(the peer closed the socket) logs and returns **before** the ancillary
fds are drained; otherwise the fds and bytes are appended to the receive
queues and complete messages are dispatched. -/
def readAndDispatch (E : ExtCalls) (r : RecvResult) (st : EngineState) :
    Option EngineState :=
  match r with
  | .wouldBlock => some st
  | .connError => some st
  | .data bytes fds =>
      if bytes.isEmpty then some st
      else dispatchMessages E
        { st with recvFds := st.recvFds ++ fds, recvBuf := st.recvBuf ++ bytes }

/-- `n` iterations of the handshake loop
`while not self._sync_done: self._read_and_dispatch()` in the situation
where the peer has closed the socket, so that every blocking `recvmsg`
immediately returns no data. -/
def iterClosed (E : ExtCalls) : Nat → EngineState → Option EngineState
  | 0, st => some st
  | n + 1, st =>
      match readAndDispatch E (.data [] []) st with
      | none => none
      | some st' => iterClosed E n st'

-- ---------------------------------------------------------------------------
-- Helper lemmas
-- ---------------------------------------------------------------------------

theorem length_insertPair (x : Nat × String) (l : List (Nat × String)) :
    (insertPair x l).length = l.length + 1 := by
  induction l with
  | nil => rfl
  | cons y ys ih =>
      unfold insertPair
      by_cases h : y.1 ≤ x.1 <;> simp [h, ih]

theorem length_sortPairs (l : List (Nat × String)) :
    (sortPairs l).length = l.length := by
  induction l with
  | nil => rfl
  | cons x xs ih => simp [sortPairs, length_insertPair, ih]

theorem regexFallback_ne_nil (E : ExtCalls) (s : String) :
    regexFallback E s ≠ [] := by
  unfold regexFallback
  by_cases h1 : (E.findallLayout s).isEmpty
  · by_cases h2 : (E.findallGroup s).isEmpty
    · simp [h1, h2]
    · simp only [h1, h2, if_true, if_false]
      by_cases h3 : (((sortPairs (E.findallGroup s)).map Prod.snd).isEmpty)
      · simp [h3]
      · simpa [h3] using fun h => h3 (by simp [h])
  · simp only [h1, if_false]
    by_cases h3 : (E.findallLayout s).isEmpty
    · exact absurd h3 h1
    · simpa [h3] using fun h => h3 (by simp [h])

-- ---------------------------------------------------------------------------
-- C1
-- ---------------------------------------------------------------------------

/-- C1: the name reported by a notification is `layouts[group]` when the
layout list is non-empty and the group index is in range, `layouts[0]`
when the list is non-empty but the index is out of range, and `"??"` when
the list is empty; consequently the reported name is always an element of
the layout list or `"??"`, and `_notify` emits exactly that resolved name
with the current group. -/
theorem resolveName_spec (layouts : List String) (group : Nat) :
    (layouts ≠ [] → group < layouts.length →
      resolveName layouts group = layouts.getD group "??")
    ∧ (layouts ≠ [] → layouts.length ≤ group →
      resolveName layouts group = layouts.getD 0 "??")
    ∧ (layouts = [] → resolveName layouts group = "??")
    ∧ (resolveName layouts group ∈ layouts ∨ resolveName layouts group = "??")
    ∧ (∀ st : EngineState, (notifyChange st).emits =
        st.emits ++ [(resolveName st.layoutNames st.currentGroup, st.currentGroup)]) := by
  refine ⟨?_, ?_, ?_, ?_, fun st => rfl⟩
  · intro hne hlt
    simp [resolveName, hne, hlt]
  · intro hne hge
    simp [resolveName, hne, Nat.not_lt.mpr hge]
  · intro h
    simp [resolveName, h]
  · by_cases hne : layouts = []
    · right; simp [resolveName, hne]
    · left
      by_cases hlt : group < layouts.length
      · have : resolveName layouts group = layouts[group] := by
          simp [resolveName, hne, hlt, List.getD_eq_getElem?_getD,
            List.getElem?_eq_getElem hlt]
        rw [this]
        exact List.getElem_mem hlt
      · have hpos : 0 < layouts.length := List.length_pos.mpr hne
        have : resolveName layouts group = layouts[0] := by
          simp [resolveName, hne, hlt, List.getD_eq_getElem?_getD,
            List.getElem?_eq_getElem hpos]
        rw [this]
        exact List.getElem_mem hpos

/-- Closed instance of `resolveName_spec`: with layouts `["EN", "DE"]` and
group 3 the resolved name is `"EN"` (the out-of-range fallback), and with
an empty list it is `"??"`. -/
theorem resolveName_spec_witness :
    resolveName ["EN", "DE"] 3 = "EN" ∧ resolveName [] 3 = "??" := by
  have h₁ := (resolveName_spec ["EN", "DE"] 3).2.1 (by decide) (by decide)
  have h₂ := (resolveName_spec [] 3).2.2.1 rfl
  exact ⟨by rw [h₁]; rfl, h₂⟩

-- ---------------------------------------------------------------------------
-- C6 and C10
-- ---------------------------------------------------------------------------

/-- C6: a keymap event whose format differs from 1 (XKB_V1) but carries a
valid fd closes that fd and returns with the layout list, the group index
and the emitted notifications unchanged. -/
theorem onKeymap_bad_format (E : ExtCalls) (st : EngineState)
    (fmt : Nat) (fd : Int) (size : Nat)
    (hfd : 0 ≤ fd) (hfmt : fmt ≠ 1) :
    (onKeymap E fmt fd size st).layoutNames = st.layoutNames
    ∧ (onKeymap E fmt fd size st).currentGroup = st.currentGroup
    ∧ (onKeymap E fmt fd size st).emits = st.emits
    ∧ (onKeymap E fmt fd size st).closedFds = st.closedFds ++ [fd] := by
  have h : ¬ fd < 0 := not_lt.mpr hfd
  simp [onKeymap, h, hfmt]

/-- A trivial oracle used to instantiate theorems at concrete inputs: no
XKB library, both text scans match nothing, every mmap read fails. -/
def extNone : ExtCalls where
  xkbCompile := none
  findallLayout := fun _ => []
  findallGroup := fun _ => []
  mmapRead := fun _ _ => none

/-- Closed instance of `onKeymap_bad_format`: a keymap event with
format 0 and fd 5 closes fd 5 and leaves the tracker untouched. -/
theorem onKeymap_bad_format_witness :
    (onKeymap extNone 0 5 100 initState).layoutNames = initState.layoutNames
    ∧ (onKeymap extNone 0 5 100 initState).currentGroup = initState.currentGroup
    ∧ (onKeymap extNone 0 5 100 initState).emits = initState.emits
    ∧ (onKeymap extNone 0 5 100 initState).closedFds = initState.closedFds ++ [5] :=
  onKeymap_bad_format extNone initState 0 5 100 (by decide) (by decide)

/-- C10: a keymap event with format 1 and a valid fd whose mmap-and-decode
step raises still closes the fd (the `finally` block) and returns with
the layout list, the group index and the emitted notifications
unchanged. -/
theorem onKeymap_mmap_failure (E : ExtCalls) (st : EngineState)
    (fd : Int) (size : Nat)
    (hfd : 0 ≤ fd) (hmm : E.mmapRead fd size = none) :
    (onKeymap E 1 fd size st).layoutNames = st.layoutNames
    ∧ (onKeymap E 1 fd size st).currentGroup = st.currentGroup
    ∧ (onKeymap E 1 fd size st).emits = st.emits
    ∧ (onKeymap E 1 fd size st).closedFds = st.closedFds ++ [fd] := by
  have h : ¬ fd < 0 := not_lt.mpr hfd
  simp [onKeymap, h, hmm]

/-- Closed instance of `onKeymap_mmap_failure` at fd 5 with the
always-failing mmap oracle. -/
theorem onKeymap_mmap_failure_witness :
    (onKeymap extNone 1 5 100 initState).layoutNames = initState.layoutNames
    ∧ (onKeymap extNone 1 5 100 initState).currentGroup = initState.currentGroup
    ∧ (onKeymap extNone 1 5 100 initState).emits = initState.emits
    ∧ (onKeymap extNone 1 5 100 initState).closedFds = initState.closedFds ++ [5] :=
  onKeymap_mmap_failure extNone initState 5 100 (by decide) rfl

-- ---------------------------------------------------------------------------
-- C2
-- ---------------------------------------------------------------------------

/-- An oracle describing a live XKB library whose keymap compilation
succeeds but reports zero layouts (`xkb_keymap_num_layouts` returns 0). -/
def extZeroLayouts : ExtCalls where
  xkbCompile := some fun _ => some []
  findallLayout := fun _ => []
  findallGroup := fun _ => []
  mmapRead := fun _ _ => none

/-- C2 counterexample: on the native XKB path a successful decode can
return the empty sequence — when the compiled keymap reports zero
layouts, `XkbParser.parse` returns `[]` without substituting
`["Unknown"]`, so a keymap event then stores an empty layout list. -/
theorem xkbParse_empty_native_counterexample :
    xkbParse extZeroLayouts "xkb_keymap" = []
    ∧ (onKeymap ⟨some fun _ => some [], fun _ => [], fun _ => [],
        fun _ _ => some "xkb_keymap"⟩ 1 5 10 initState).layoutNames = [] := by
  constructor <;> rfl

/-- C2 amended: the `["Unknown"]` substitution lives only in the
text-scan fallback, which indeed never returns an empty sequence; the
native XKB path returns one name per layout the library reports, so the
whole decode returns the empty sequence exactly when a live library
compiles the keymap and reports zero layouts. -/
theorem xkbParse_empty_iff (E : ExtCalls) (s : String) :
    regexFallback E s ≠ []
    ∧ (xkbParse E s = [] ↔
        ∃ compile, E.xkbCompile = some compile ∧ compile s = some []) := by
  refine ⟨regexFallback_ne_nil E s, ?_⟩
  unfold xkbParse
  match hE : E.xkbCompile with
  | none =>
      simp only [hE]
      constructor
      · intro h; exact absurd h (regexFallback_ne_nil E s)
      · rintro ⟨c, hc, _⟩; cases hc
  | some compile =>
      simp only [hE]
      match hc : compile s with
      | none =>
          simp only [hc]
          constructor
          · intro h; exact absurd h (regexFallback_ne_nil E s)
          · rintro ⟨c, hcs, hcc⟩
            cases Option.some.inj hcs
            rw [hc] at hcc; cases hcc
      | some raws =>
          simp only [hc, List.map_eq_nil_iff]
          constructor
          · intro h
            refine ⟨compile, rfl, ?_⟩
            rw [hc]
            have : raws = [] := by
              cases raws with
              | nil => rfl
              | cons a as => simp [List.enum] at h
            rw [this]
          · rintro ⟨c, hcs, hcc⟩
            cases Option.some.inj hcs
            rw [hc] at hcc
            cases Option.some.inj hcc
            simp

-- ---------------------------------------------------------------------------
-- C9
-- ---------------------------------------------------------------------------

/-- C9 counterexample: with `WAYLAND_DISPLAY` unset (so the relative
default `"wayland-0"` applies) and `XDG_RUNTIME_DIR` **set to the empty
string**, path resolution still fails — Python's `if not xdg` treats the
set-but-empty variable like an unset one, so the failure condition is not
"exactly when the variable is unset". -/
theorem socketPath_empty_xdg_counterexample :
    waylandSocketPath none (some "") = none
    ∧ (some "" : Option String).isSome = true := by
  exact ⟨by decide, rfl⟩

/-- C9 amended: an absolute `WAYLAND_DISPLAY` is used verbatim; a relative
display (defaulting to `"wayland-0"`) is joined to `XDG_RUNTIME_DIR`; and
resolution fails exactly when the display is relative and
`XDG_RUNTIME_DIR` is unset **or set to the empty string**. -/
theorem socketPath_spec_amended (wd xdg : Option String) :
    (∀ d, wd = some d → startsWithSlash d = true →
      waylandSocketPath wd xdg = some d)
    ∧ (∀ x, startsWithSlash (wd.getD "wayland-0") = false → xdg = some x →
        x ≠ "" → waylandSocketPath wd xdg = some (pathJoin x (wd.getD "wayland-0")))
    ∧ (waylandSocketPath wd xdg = none ↔
        (startsWithSlash (wd.getD "wayland-0") = false
          ∧ (xdg = none ∨ xdg = some ""))) := by
  refine ⟨?_, ?_, ?_⟩
  · intro d hd hs
    subst hd
    simp [waylandSocketPath, hs]
  · intro x hrel hx hne
    subst hx
    simp [waylandSocketPath, hrel, hne]
  · by_cases h : startsWithSlash (wd.getD "wayland-0") = true
    · simp [waylandSocketPath, h]
    · have h' : startsWithSlash (wd.getD "wayland-0") = false := by
        simpa using h
      cases xdg with
      | none => simp [waylandSocketPath, h']
      | some x =>
          by_cases hx : x = ""
          · subst hx
            simp [waylandSocketPath, h']
          · simp [waylandSocketPath, h', hx]

/-- Closed instance of `socketPath_spec_amended`: an absolute display is
returned verbatim even with empty `XDG_RUNTIME_DIR`, and the relative
default joins `XDG_RUNTIME_DIR`. -/
theorem socketPath_spec_amended_witness :
    waylandSocketPath (some "/tmp/wl") (some "") = some "/tmp/wl"
    ∧ waylandSocketPath none (some "/run/user/1000")
        = some (pathJoin "/run/user/1000" "wayland-0") := by
  constructor
  · exact (socketPath_spec_amended (some "/tmp/wl") (some "")).1 "/tmp/wl" rfl
      (by decide)
  · exact (socketPath_spec_amended none (some "/run/user/1000")).2.1
      "/run/user/1000" (by decide) rfl (by simp)

-- ---------------------------------------------------------------------------
-- C3
-- ---------------------------------------------------------------------------

/-- C3: once the peer has closed the socket, `_read_and_dispatch` only
logs and returns with the state unchanged, so however many iterations the
handshake loop `while not self._sync_done` runs, `_sync_done` stays
false: `connect()` never returns (it spins on `recvmsg`), instead of
surfacing `ConnectionLost` as specified. -/
theorem connect_loop_stuck_on_closed_socket (E : ExtCalls) (st : EngineState)
    (n : Nat) (h : st.syncDone = false) :
    iterClosed E n st = some st
    ∧ ∀ st', iterClosed E n st = some st' → st'.syncDone = false := by
  have hiter : iterClosed E n st = some st := by
    induction n with
    | zero => rfl
    | succ n ih => simpa [iterClosed, readAndDispatch] using ih
  refine ⟨hiter, fun st' hst' => ?_⟩
  rw [hiter] at hst'
  cases Option.some.inj hst'
  exact h

/-- Closed instance of `connect_loop_stuck_on_closed_socket`: five loop
iterations after the peer closed leave the freshly connected state
unchanged, `syncDone` still false. -/
theorem connect_loop_stuck_on_closed_socket_witness :
    iterClosed extNone 5 initState = some initState
    ∧ initState.syncDone = false :=
  ⟨(connect_loop_stuck_on_closed_socket extNone initState 5 rfl).1, rfl⟩

-- ---------------------------------------------------------------------------
-- C4
-- ---------------------------------------------------------------------------

theorem frameLoop_nil (f : Nat) : frameLoop f [] = ([], []) := by
  cases f with
  | zero => rfl
  | succ f => simp [frameLoop]

theorem frameLoop_stop (fuel : Nat) (buf : List Nat) (h8 : 8 ≤ buf.length)
    (h : msgSizeOf buf < 8 ∨ buf.length < msgSizeOf buf) :
    frameLoop fuel buf = ([], buf) := by
  cases fuel with
  | zero => rfl
  | succ f => simp [frameLoop, h8, h]

/-- C4 amended: a front header declaring a size under 8 halts dispatching
with the malformed frame retained at the front of the buffer: nothing is
routed from it, `_dispatch_messages` simply breaks out of its loop, and
`dispatch` returns normally — no `ProtocolError` exists in the code and
the engine does not terminate. -/
theorem dispatch_small_size_retains (buf : List Nat) (h8 : 8 ≤ buf.length)
    (hs : msgSizeOf buf < 8) :
    frameMessages buf = ([], buf)
    ∧ ∀ (E : ExtCalls) (st : EngineState), st.recvBuf = buf →
        dispatchMessages E st = some st := by
  have hstop : frameMessages buf = ([], buf) :=
    frameLoop_stop buf.length buf h8 (Or.inl hs)
  refine ⟨hstop, fun E st hb => ?_⟩
  simp only [dispatchMessages, hb, hstop, dispatchEvents]
  rw [← hb]

/-- A frame whose header declares the impossible size 4. -/
def malBuf : List Nat := [1, 0, 0, 0, 0, 0, 4, 0]

/-- C4 counterexample: delivering a frame with declared size 4 makes the
next dispatch call return normally with the malformed frame retained in
the receive buffer — no error is surfaced and nothing terminates, contra
the claim. -/
theorem dispatch_small_size_counterexample :
    msgSizeOf malBuf = 4
    ∧ readAndDispatch extNone (.data malBuf []) initState
        = some { initState with recvBuf := malBuf } := by
  constructor
  · rfl
  · rfl

/-- Closed instance of `dispatch_small_size_retains` on `malBuf`. -/
theorem dispatch_small_size_retains_witness :
    frameMessages malBuf = ([], malBuf)
    ∧ dispatchMessages extNone { initState with recvBuf := malBuf }
        = some { initState with recvBuf := malBuf } := by
  have h := dispatch_small_size_retains malBuf (by decide) (by decide)
  exact ⟨h.1, h.2 extNone _ rfl⟩

-- ---------------------------------------------------------------------------
-- C7
-- ---------------------------------------------------------------------------

theorem frameLoop_congr (f₁ : Nat) : ∀ (f₂ : Nat) (buf : List Nat),
    buf.length ≤ f₁ → buf.length ≤ f₂ → frameLoop f₁ buf = frameLoop f₂ buf := by
  induction f₁ with
  | zero =>
      intro f₂ buf h1 _
      have hb : buf = [] := List.length_eq_zero.mp (Nat.le_zero.mp h1)
      subst hb
      rw [frameLoop_nil, frameLoop_nil]
  | succ f₁ ih =>
      intro f₂ buf h1 h2
      cases f₂ with
      | zero =>
          have hb : buf = [] := List.length_eq_zero.mp (Nat.le_zero.mp h2)
          subst hb
          rw [frameLoop_nil, frameLoop_nil]
      | succ f₂ =>
          by_cases h8 : 8 ≤ buf.length
          · by_cases hstop : msgSizeOf buf < 8 ∨ buf.length < msgSizeOf buf
            · simp [frameLoop, h8, hstop]
            · have hA : 8 ≤ msgSizeOf buf := Nat.not_lt.mp (not_or.mp hstop).1
              have hB : msgSizeOf buf ≤ buf.length := Nat.not_lt.mp (not_or.mp hstop).2
              have hrec := ih f₂ (buf.drop (msgSizeOf buf))
                (by simp; omega) (by simp; omega)
              simp [frameLoop, h8, hstop, hrec]
          · simp [frameLoop, h8]

/-- C7: while the buffer holds at least 8 bytes and at least the declared
size of the front message (which, being a message, declares a size of at
least 8), exactly one message of that declared size is sliced off the
front — object ID and opcode from the header, `buf[8:msg_size]` as the
payload — and dispatching continues greedily on the rest. -/
theorem frameMessages_greedy_step (buf : List Nat)
    (h8 : 8 ≤ buf.length) (hm : 8 ≤ msgSizeOf buf)
    (hlen : msgSizeOf buf ≤ buf.length) :
    frameMessages buf =
      ((objIdOf buf, opcodeOf buf, (buf.drop 8).take (msgSizeOf buf - 8))
          :: (frameMessages (buf.drop (msgSizeOf buf))).1,
        (frameMessages (buf.drop (msgSizeOf buf))).2) := by
  unfold frameMessages
  obtain ⟨f, hf⟩ : ∃ f, buf.length = f + 1 := ⟨buf.length - 1, by omega⟩
  have hstop : ¬ (msgSizeOf buf < 8 ∨ buf.length < msgSizeOf buf) := by omega
  have hcongr := frameLoop_congr f (buf.drop (msgSizeOf buf)).length
    (buf.drop (msgSizeOf buf)) (by simp; omega) (by simp)
  rw [hf]
  simp only [frameLoop, if_neg hstop, hcongr]
  rw [if_pos h8]

/-- Two complete messages (sizes 12 and 8) followed by a 4-byte half
message. -/
def demoBuf : List Nat :=
  buildMsg 1 0 (packUint 5) ++ buildMsg 3 1 [] ++ [7, 0, 0, 0]

/-- Closed instance of `frameMessages_greedy_step` on `demoBuf`: the two
complete messages are dispatched and the half message stays buffered. -/
theorem frameMessages_greedy_step_witness :
    frameMessages demoBuf =
      ((objIdOf demoBuf, opcodeOf demoBuf,
          (demoBuf.drop 8).take (msgSizeOf demoBuf - 8))
          :: (frameMessages (demoBuf.drop (msgSizeOf demoBuf))).1,
        (frameMessages (demoBuf.drop (msgSizeOf demoBuf))).2)
    ∧ frameMessages demoBuf = ([(1, 0, [5, 0, 0, 0]), (3, 1, [])], [7, 0, 0, 0]) := by
  refine ⟨frameMessages_greedy_step demoBuf (by decide) (by decide) (by decide), ?_⟩
  decide

-- ---------------------------------------------------------------------------
-- C5
-- ---------------------------------------------------------------------------

/-- Payload of a `registry.global(name, interface, version)` event as the
server serialises it: u32 name, packed interface string, u32 version. -/
def globalPayload (name : Nat) (iface : String) (ver : Nat) : List Nat :=
  packUint name ++ packString (strBytes iface) ++ packUint ver

theorem registry_wl_seat_overwrites (st : EngineState) (n v : Nat)
    (hn : n < 4294967296) :
    handleRegistryEvent WL_REGISTRY_GLOBAL (globalPayload n "wl_seat" v) st
      = some { st with seatGlobalName := some n } := by
  simp [handleRegistryEvent, WL_REGISTRY_GLOBAL, globalPayload, packString,
    strBytes, utf8EncodeChar, u32at, u32le, packUint, List.flatMap]
  omega

/-- C5 amended: every `registry.global` advertisement whose interface is
`"wl_seat"` unconditionally overwrites the remembered numeric name, so
after two such advertisements the client remembers the **last** one. -/
theorem registry_seat_last_wins (st : EngineState) (n₁ n₂ v₁ v₂ : Nat)
    (h₁ : n₁ < 4294967296) (h₂ : n₂ < 4294967296) :
    (handleRegistryEvent WL_REGISTRY_GLOBAL (globalPayload n₁ "wl_seat" v₁) st).bind
      (handleRegistryEvent WL_REGISTRY_GLOBAL (globalPayload n₂ "wl_seat" v₂))
      = some { st with seatGlobalName := some n₂ } := by
  rw [registry_wl_seat_overwrites st n₁ v₁ h₁, Option.some_bind,
    registry_wl_seat_overwrites _ n₂ v₂ h₂]

/-- C5 counterexample: after `wl_seat` advertisements with names 7 then 9,
the remembered seat name is 9 — the first occurrence did **not** win. -/
theorem registry_first_wins_counterexample :
    ((handleRegistryEvent WL_REGISTRY_GLOBAL (globalPayload 7 "wl_seat" 1) initState).bind
        (handleRegistryEvent WL_REGISTRY_GLOBAL (globalPayload 9 "wl_seat" 1))).map
        (fun st => st.seatGlobalName) = some (some 9) := by
  rfl

/-- Closed instance of `registry_seat_last_wins` at names 7 then 9. -/
theorem registry_seat_last_wins_witness :
    (handleRegistryEvent WL_REGISTRY_GLOBAL (globalPayload 7 "wl_seat" 2) initState).bind
      (handleRegistryEvent WL_REGISTRY_GLOBAL (globalPayload 9 "wl_seat" 2))
      = some { initState with seatGlobalName := some 9 } :=
  registry_seat_last_wins initState 7 9 2 2 (by decide) (by decide)

-- ---------------------------------------------------------------------------
-- C8
-- ---------------------------------------------------------------------------

theorem u32le_packUint (v : Nat) : u32le (packUint v) = v % 4294967296 := by
  simp [u32le, packUint]
  omega

theorem u32at_head (v : Nat) (rest : List Nat) :
    u32at (packUint v ++ rest) 0 = some (v % 4294967296) := by
  unfold u32at
  rw [if_pos (by simp [packUint])]
  rw [List.drop_zero, List.take_left' (by simp [packUint]), u32le_packUint]

/-- C8: `_pack_string` produces the u32 byte length (counting the
terminating NUL), the UTF-8 bytes, a NUL, then zero padding to the next
4-byte boundary; the total length is a multiple of 4; and unpacking with
the length-plus-padding rule the registry handler uses recovers the UTF-8
bytes of `s` exactly, with the next offset just past the packed string
(so the round trip is the identity on any valid UTF-8 string, however
much data follows it in the buffer). -/
theorem packString_roundtrip (s : String) (extra : List Nat)
    (h : (strBytes s).length + 1 < 4294967296) :
    (packString (strBytes s)).length % 4 = 0
    ∧ packString (strBytes s)
        = packUint ((strBytes s).length + 1) ++ strBytes s ++ [0]
            ++ List.replicate ((4 - ((strBytes s).length + 1) % 4) % 4) 0
    ∧ unpackString (packString (strBytes s) ++ extra)
        = some (strBytes s, (packString (strBytes s)).length) := by
  set sb := strBytes s with hsb
  have hlen : (packString sb).length
      = 4 + (sb.length + 1) + (4 - (sb.length + 1) % 4) % 4 := by
    simp [packString, packUint]
    omega
  refine ⟨by omega, ?_, ?_⟩
  · simp [packString, List.append_assoc]
  · have hshape : packString sb ++ extra
        = packUint (sb.length + 1)
            ++ (sb ++ ([0] ++ (List.replicate ((4 - (sb.length + 1) % 4) % 4) 0
                ++ extra))) := by
      simp [packString, List.append_assoc]
    rw [hshape]
    unfold unpackString
    rw [u32at_head, Nat.mod_eq_of_lt h]
    rw [List.drop_left' (by simp [packUint] : (packUint (sb.length + 1)).length = 4)]
    dsimp only
    rw [List.take_left' (by omega : sb.length = sb.length + 1 - 1)]
    rw [hlen]

/-- Closed instance of `packString_roundtrip` at `s = "wl_seat"` with two
trailing bytes: the packed form is 12 bytes (a multiple of 4) and unpacks
back to the UTF-8 bytes of `"wl_seat"`. -/
theorem packString_roundtrip_witness :
    (packString (strBytes "wl_seat")).length % 4 = 0
    ∧ unpackString (packString (strBytes "wl_seat") ++ [1, 2])
        = some (strBytes "wl_seat", (packString (strBytes "wl_seat")).length) := by
  have h := packString_roundtrip "wl_seat" [1, 2] (by decide)
  exact ⟨h.1, h.2.2⟩

/-- Closed instance of `xkbParse_empty_iff` at the library-less oracle:
the fallback is non-empty and the decode is empty only under a live
compiling library reporting zero layouts (which this oracle is not). -/
theorem xkbParse_empty_iff_witness :
    regexFallback extNone "keymap" ≠ []
    ∧ (xkbParse extNone "keymap" = [] ↔
        ∃ compile, extNone.xkbCompile = some compile
          ∧ compile "keymap" = some []) :=
  xkbParse_empty_iff extNone "keymap"
